import Mathlib

/-!
Shallow embedding of the `load-balancer` repository
(`src/lbMultiThreading.py`, `src/lbasync.py`).

The two variants share the routing core: a fixed backend registry, a
mutable healthy set updated by a health-monitor loop, a round-robin
selector over a snapshot of the healthy set, and a per-connection proxy
protocol that emits synthetic 503/502 responses on failure paths.

Modelling conventions:
* a backend (`Server`) is a `(host, port)` pair;
* the Python `set` of healthy servers is modelled as a duplicate-free
  `List Server`; within one process run, `list(healthy_servers)` yields a
  fixed order for a fixed set, which the list order represents;
* bytes are modelled as `List Char` (the payloads involved are ASCII);
* socket I/O is modelled by event traces: each `handle_client` variant is
  a function from its inputs (routing state, client byte stream, backend
  behaviour) to the list of observable I/O events it performs.
-/

namespace LoadBalancer

/-- A backend endpoint, identified by `(host, port)` —
`backend_servers` entries in both sources. -/
abbrev Server := String × Nat

/-- Registry `backend_servers = [('127.0.0.1', 8080), ('127.0.0.1', 8081), ('127.0.0.1', 8082)]`
(lbMultiThreading.py line 18, lbasync.py line 16): the fixed backend registry. -/
def backend_servers : List Server :=
  [("127.0.0.1", 8080), ("127.0.0.1", 8081), ("127.0.0.1", 8082)]

/-- Initial `healthy_servers = set(backend_servers.copy())` (lbMultiThreading.py line 20,
lbasync.py line 18): the initial healthy set holds every configured backend. -/
def healthy_servers : List Server := backend_servers

/-- The routing state shared by the selector and the health monitor:
the healthy set (as its snapshot list) and the round-robin cursor
(`rr_index`, a global starting at 0 in both sources). -/
structure RoutingState where
  healthy : List Server
  cursor : Nat
deriving Repr, DecidableEq

/-- Model of `find_backend_server()` (lbMultiThreading.py lines 68-85, lbasync.py
lines 85-98; the two bodies perform the same sequential steps, the threaded
one under two locks, the async one under a single lock):

    if len(healthy_servers) == 0: return None
    servers_list = list(healthy_servers)
    rr_index %= servers_list_length
    backend_server = servers_list[rr_index]
    rr_index = (rr_index + 1) % servers_list_length
    return backend_server

Returns the selected backend (if any) and the updated state. -/
def find_backend_server (st : RoutingState) : Option Server × RoutingState :=
  if st.healthy.length = 0 then (none, st)
  else
    let n := st.healthy.length
    let idx := st.cursor % n
    (st.healthy[idx]?, { st with cursor := (idx + 1) % n })

/-- The routing state after `n` consecutive `find_backend_server()` calls. -/
def selectN (st : RoutingState) : Nat → RoutingState
  | 0 => st
  | n + 1 => (find_backend_server (selectN st n)).2

/-- The backend returned by the `(i+1)`-th of a run of consecutive
`find_backend_server()` calls (0-indexed: call `i`). -/
def selectedAt (st : RoutingState) (i : Nat) : Option Server :=
  (find_backend_server (selectN st i)).1

example : (find_backend_server ⟨healthy_servers, 0⟩).1 = some ("127.0.0.1", 8080) := by decide
example : selectedAt ⟨healthy_servers, 0⟩ 4 = some ("127.0.0.1", 8081) := by decide
example : (find_backend_server ⟨[], 7⟩).1 = none := by decide

/-! ## Health monitor -/

/-- The outcome of one raw health-probe attempt against a backend, before the
probe function's own exception handling: the probe either completes with a
response whose status indicates success or not, or it raises (timeout,
connection refused, I/O error, decode error). -/
inductive ProbeResult where
  | success : ProbeResult
  | failure : ProbeResult
  | thrown : ProbeResult
deriving Repr, DecidableEq

/-- Model of `call_health_route(server)` (lbMultiThreading.py lines 30-48, lbasync.py
lines 52-64): issues the probe inside a `try`; a successful 200 response yields
`True`, any other response yields `False`, and `except Exception: return False`
maps every raised error to `False` as well. So the caller observes a plain
boolean and never an exception from the probe itself. -/
def call_health_route : ProbeResult → Bool
  | ProbeResult.success => true
  | ProbeResult.failure => false
  | ProbeResult.thrown => false

/-- One iteration of the inner `for server in backend_servers` body of
`updateHealthyServers()` (lbMultiThreading.py lines 53-61, lbasync.py lines
68-76), given the boolean `is_healthy` returned by the probe:

    if is_healthy and server not in healthy_servers: healthy_servers.add(server)
    elif not is_healthy and server in healthy_servers: healthy_servers.remove(server)

The set's `add` is modelled by appending when absent, `remove` by `erase`. -/
def healthStep (healthy : List Server) (server : Server) (is_healthy : Bool) :
    List Server :=
  if is_healthy = true ∧ server ∉ healthy then healthy ++ [server]
  else if is_healthy = false ∧ server ∈ healthy then healthy.erase server
  else healthy

/-- One full cycle of `updateHealthyServers()` (lbMultiThreading.py lines
50-66, lbasync.py lines 65-82): probe every backend of the registry in
registration order and fold the per-backend update over the healthy set.
`probe` gives the raw outcome of each backend's probe attempt in this cycle;
`call_health_route` converts it to the boolean the loop body sees.  The
`except` arm wrapping the loop body is unreachable for probe failures, because
`call_health_route` catches all of its own exceptions and returns `False`. -/
def updateHealthyServersCycle (registry : List Server)
    (probe : Server → ProbeResult) (healthy : List Server) : List Server :=
  registry.foldl (fun h s => healthStep h s (call_health_route (probe s))) healthy

example :
    updateHealthyServersCycle backend_servers
      (fun s => if s = ("127.0.0.1", 8081) then ProbeResult.thrown
                else ProbeResult.success) healthy_servers
      = [("127.0.0.1", 8080), ("127.0.0.1", 8082)] := by decide

example :
    updateHealthyServersCycle backend_servers (fun _ => ProbeResult.failure)
      healthy_servers = [] := by decide

/-! ## Request framing (`read_full_request`, lbasync.py lines 27-50) -/

/-- The header terminator `b"\r\n\r\n"`. -/
def crlfcrlf : List Char := ['\r', '\n', '\r', '\n']

/-- Model of `await client_reader.readuntil(b"\r\n\r\n")` (lbasync.py line 34): returns
the prefix of the stream up to and including the first occurrence of the
separator, paired with the remaining bytes; `none` models the
`IncompleteReadError` raised when the stream ends without the separator. -/
def readuntil : List Char → Option (List Char × List Char)
  | [] => none
  | c :: rest =>
    if (c :: rest).take 4 = crlfcrlf then some (crlfcrlf, rest.drop 3)
    else
      match readuntil rest with
      | some (pre, post) => some (c :: pre, post)
      | none => none

/-- Model of `header_text.split("\r\n")` (lbasync.py line 39): split the header block
into lines at each CRLF. -/
def splitCRLF : List Char → List (List Char)
  | [] => [[]]
  | [c] => [[c]]
  | c₁ :: c₂ :: rest =>
    if c₁ = '\r' ∧ c₂ = '\n' then [] :: splitCRLF rest
    else
      match splitCRLF (c₂ :: rest) with
      | l :: ls => (c₁ :: l) :: ls
      | [] => [[c₁]]

/-- The lowercase header prefix matched by
`line.lower().startswith("content-length:")` (lbasync.py line 40). -/
def contentLengthKey : List Char := "content-length:".data

/-- Model of `line.lower().startswith(key)` for an already-lowercase `key`. -/
def startsWithLower (key line : List Char) : Bool :=
  (line.take key.length).map Char.toLower = key

/-- Model of `line.split(":", 1)[1]`: everything after the first colon. -/
def afterFirstColon : List Char → List Char
  | [] => []
  | c :: rest => if c = ':' then rest else afterFirstColon rest

/-- Python `str.strip()`: drop leading and trailing whitespace. -/
def stripChars (s : List Char) : List Char :=
  ((s.dropWhile Char.isWhitespace).reverse.dropWhile Char.isWhitespace).reverse

/-- The value of a digit string, `none` when empty or non-numeric. -/
def digitsVal : List Char → Option Nat
  | [] => none
  | [c] => if c.isDigit then some (c.toNat - '0'.toNat) else none
  | c :: rest =>
    if c.isDigit then
      (digitsVal rest).map (fun n => (c.toNat - '0'.toNat) * 10 ^ rest.length + n)
    else none

/-- Python `int(s)` on an already-stripped string: optional sign followed by
digits; `none` models the `ValueError` on anything else. -/
def parseIntPy (s : List Char) : Option Int :=
  match s with
  | '-' :: ds => (digitsVal ds).map (fun n => -(n : Int))
  | '+' :: ds => (digitsVal ds).map (fun n => (n : Int))
  | ds => (digitsVal ds).map (fun n => (n : Int))

/-- The `content_length` computed by the header loop of `read_full_request`
(lbasync.py lines 36-44): the first line whose lowercase form starts with
`content-length:` is parsed with `int(line.split(":", 1)[1].strip() or 0)`;
an empty value means 0 (`or 0`), a parse error hits the enclosing `except`
and also leaves `content_length = 0`; no matching line leaves it 0. -/
def findContentLength : List (List Char) → Int
  | [] => 0
  | line :: rest =>
    if startsWithLower contentLengthKey line then
      match stripChars (afterFirstColon line) with
      | [] => 0
      | v =>
        match parseIntPy v with
        | some n => n
        | none => 0
    else findContentLength rest

/-- Model of `read_full_request(client_reader)` (lbasync.py lines 27-50): read headers
up to the terminator, parse `Content-Length`, and when it is positive read
exactly that many body bytes (`readexactly`, whose `IncompleteReadError` on a
short stream is modelled by `none`); otherwise the body is empty.  Returns
`(headers, body)`. -/
def read_full_request (stream : List Char) : Option (List Char × List Char) :=
  match readuntil stream with
  | none => none
  | some (headers, rest) =>
    let content_length := findContentLength (splitCRLF headers)
    if 0 < content_length then
      if rest.length < content_length.toNat then none
      else some (headers, rest.take content_length.toNat)
    else some (headers, [])

example :
    read_full_request ("GET / HTTP/1.1\r\nContent-Length: 3\r\n\r\nabcdef").data
      = some (("GET / HTTP/1.1\r\nContent-Length: 3\r\n\r\n").data, ['a', 'b', 'c']) := by
  decide

example :
    read_full_request ("GET / HTTP/1.1\r\nHost: x\r\n\r\ntrailing").data
      = some (("GET / HTTP/1.1\r\nHost: x\r\n\r\n").data, []) := by decide

example : read_full_request ("GET / HTTP/1.1\r\nnothing").data = none := by decide

/-! ## Per-connection proxy protocol (`handle_client`, both variants) -/

/-- The synthetic 503 response
(lbMultiThreading.py line 96, lbasync.py line 110). -/
def msg503 : List Char :=
  ("HTTP/1.1 503 Service Unavailable\r\nConnection: close\r\nContent-Length: 0\r\n\r\n").data

/-- The synthetic 502 response (lbasync.py line 137). -/
def msg502 : List Char :=
  ("HTTP/1.1 502 Bad Gateway\r\nConnection: close\r\nContent-Length: 0\r\n\r\n").data

/-- The observable I/O actions a `handle_client` invocation performs, in
program order: reading request bytes from the client, calling the selector,
attempting a backend connection, writing bytes to the backend, writing bytes
to the client, closing the client socket, closing the backend socket. -/
inductive Event where
  | readC : List Char → Event
  | select : Option Server → Event
  | connectB : Server → Event
  | toB : List Char → Event
  | toC : List Char → Event
  | closeC : Event
  | closeB : Event
deriving Repr, DecidableEq

/-- The behaviour of the network towards one backend during one session:
whether connecting succeeds, the response chunks the backend returns, and
whether after those chunks the backend connection errors out instead of
signalling a clean end-of-stream. -/
structure BackendBeh where
  connectOk : Bool
  chunks : List (List Char)
  dropMidStream : Bool
deriving Repr, DecidableEq

/-- Model of `handle_client(clientsocket, addr)` of the thread-pool variant
(lbMultiThreading.py lines 88-114) as an event trace:

1. `data_received = clientsocket.recv(4096)` — read the client's bytes;
2. `find_backend_server()` — if `None`, send the 503 literal and return;
3. `backend_socket.connect(backend_server)` — a refused connection raises,
   the handler's `except` only logs, and `finally` closes both sockets
   (no synthetic response is written);
4. forward `data_received`, then stream response chunks to the client until
   the backend signals end-of-stream; a mid-stream error likewise only runs
   the `except`-log and the `finally` closes;
5. `finally` closes both sockets on every path (the backend socket object
   exists from line 89 even when never connected). -/
def handle_client_mt (st : RoutingState) (request : List Char)
    (beh : Server → BackendBeh) : List Event :=
  Event.readC request ::
    match (find_backend_server st).1 with
    | none =>
      [Event.select none, Event.toC msg503, Event.closeC, Event.closeB]
    | some b =>
      Event.select (some b) :: Event.connectB b ::
        if (beh b).connectOk then
          Event.toB request ::
            ((beh b).chunks.map Event.toC ++ [Event.closeC, Event.closeB])
        else
          [Event.closeC, Event.closeB]

/-- Model of `handle_client(client_reader, client_writer)` of the cooperative variant
(lbasync.py lines 101-146) as an event trace:

1. `find_backend_server()` first — if `None`, send the 503 literal and
   return (the backend writer was never created, so `finally` closes only
   the client);
2. `asyncio.open_connection(...)` — a refused connection raises and the
   `except` writes the 502 literal, then `finally` closes the client;
3. `read_full_request(client_reader)` — a framing failure raises, the
   `except` writes the 502 literal, `finally` closes both;
4. forward `headers` then, when non-empty, `body` to the backend, and
   stream response chunks back to the client; if the backend drops
   mid-stream the `except` writes the 502 literal (unconditionally, even
   after chunks were already forwarded);
5. `finally` closes the client writer, and the backend writer when it was
   opened. -/
def handle_client_async (st : RoutingState) (stream : List Char)
    (beh : Server → BackendBeh) : List Event :=
  match (find_backend_server st).1 with
  | none =>
    [Event.select none, Event.toC msg503, Event.closeC]
  | some b =>
    Event.select (some b) :: Event.connectB b ::
      if (beh b).connectOk then
        match read_full_request stream with
        | none => [Event.toC msg502, Event.closeC, Event.closeB]
        | some (headers, body) =>
          Event.readC (headers ++ body) :: Event.toB headers ::
            ((if body = [] then [] else [Event.toB body]) ++
              (beh b).chunks.map Event.toC ++
              (if (beh b).dropMidStream then [Event.toC msg502] else []) ++
              [Event.closeC, Event.closeB])
      else
        [Event.toC msg502, Event.closeC]

/-- All bytes a trace writes to the client, in order. -/
def clientBytes : List Event → List Char
  | [] => []
  | Event.toC d :: rest => d ++ clientBytes rest
  | _ :: rest => clientBytes rest

/-- All bytes a trace writes to the backend, in order. -/
def backendBytes : List Event → List Char
  | [] => []
  | Event.toB d :: rest => d ++ backendBytes rest
  | _ :: rest => backendBytes rest

/-- The backends a trace attempts to connect to, in order. -/
def connectAttempts : List Event → List Server
  | [] => []
  | Event.connectB s :: rest => s :: connectAttempts rest
  | _ :: rest => connectAttempts rest

/-- Recognisers for ordering claims about traces. -/
def isSelect : Event → Bool
  | Event.select _ => true
  | _ => false

def isReadC : Event → Bool
  | Event.readC _ => true
  | _ => false

/-! ## Claims -/

/-- C2: every client connection handled while the healthy set is empty gets
exactly the 503 literal written to it, the session is terminated (both
variants close the client socket), and no backend connection is attempted —
in the thread-pool and the cooperative variant alike. -/
theorem C2_empty_healthy_503 (st : RoutingState) (req stream : List Char)
    (beh : Server → BackendBeh) (h : st.healthy = []) :
    clientBytes (handle_client_mt st req beh) = msg503 ∧
    connectAttempts (handle_client_mt st req beh) = [] ∧
    Event.closeC ∈ handle_client_mt st req beh ∧
    clientBytes (handle_client_async st stream beh) = msg503 ∧
    connectAttempts (handle_client_async st stream beh) = [] ∧
    Event.closeC ∈ handle_client_async st stream beh := by
  have hsel : (find_backend_server st).1 = none := by
    simp [find_backend_server, h]
  refine ⟨?_, ?_, ?_, ?_, ?_, ?_⟩ <;>
    simp [handle_client_mt, handle_client_async, hsel, clientBytes, connectAttempts]

/-- Witness for C2 at a concrete empty-healthy state. -/
theorem C2_empty_healthy_503_witness :
    (RoutingState.mk [] 7).healthy = [] ∧
    (clientBytes (handle_client_mt ⟨[], 7⟩ [] (fun _ => ⟨true, [], false⟩)) = msg503 ∧
      connectAttempts (handle_client_mt ⟨[], 7⟩ [] (fun _ => ⟨true, [], false⟩)) = [] ∧
      Event.closeC ∈ handle_client_mt ⟨[], 7⟩ [] (fun _ => ⟨true, [], false⟩) ∧
      clientBytes (handle_client_async ⟨[], 7⟩ [] (fun _ => ⟨true, [], false⟩)) = msg503 ∧
      connectAttempts (handle_client_async ⟨[], 7⟩ [] (fun _ => ⟨true, [], false⟩)) = [] ∧
      Event.closeC ∈ handle_client_async ⟨[], 7⟩ [] (fun _ => ⟨true, [], false⟩)) :=
  ⟨rfl, C2_empty_healthy_503 ⟨[], 7⟩ [] [] (fun _ => ⟨true, [], false⟩) rfl⟩

/-- C6: while the healthy set is empty, every `find_backend_server()` call in
a run of consecutive calls returns `none`, and the state (healthy set and
rotation cursor alike) is left unchanged by each of those calls. -/
theorem C6_empty_select_none (st : RoutingState) (h : st.healthy = []) (k : Nat) :
    selectedAt st k = none ∧ selectN st k = st := by
  have hfix : find_backend_server st = (none, st) := by
    simp [find_backend_server, h]
  have hstate : ∀ m, selectN st m = st := by
    intro m
    induction m with
    | zero => rfl
    | succ n ih => simp [selectN, ih, hfix]
  exact ⟨by simp [selectedAt, hstate, hfix], hstate k⟩

/-- Witness for C6 at a concrete empty-healthy state. -/
theorem C6_empty_select_none_witness :
    (RoutingState.mk [] 3).healthy = [] ∧
    (selectedAt ⟨[], 3⟩ 5 = none ∧ selectN ⟨[], 3⟩ 5 = ⟨[], 3⟩) :=
  ⟨rfl, C6_empty_select_none ⟨[], 3⟩ rfl 5⟩

/-- C7: on a non-empty healthy snapshot, the index used by
`find_backend_server()` is the cursor reduced modulo the current snapshot
length, hence in bounds for that snapshot whatever the stored cursor was
(even one left over from a differently-sized set); the indexed access
therefore yields a backend, and the updated cursor is again strictly below
the snapshot length. -/
theorem C7_index_in_range (st : RoutingState) (h : st.healthy ≠ []) :
    st.cursor % st.healthy.length < st.healthy.length ∧
    (find_backend_server st).1 = st.healthy[st.cursor % st.healthy.length]? ∧
    ((find_backend_server st).1).isSome = true ∧
    (find_backend_server st).2.cursor < st.healthy.length := by
  have hlen : 0 < st.healthy.length := List.length_pos.mpr h
  have hne : ¬ st.healthy.length = 0 := Nat.pos_iff_ne_zero.mp hlen
  refine ⟨Nat.mod_lt _ hlen, ?_, ?_, ?_⟩
  · simp [find_backend_server, hne]
  · simp [find_backend_server, hne,
      List.getElem?_eq_getElem (Nat.mod_lt st.cursor hlen)]
  · simp only [find_backend_server, hne, if_false]
    exact Nat.mod_lt _ hlen

/-- Witness for C7 at a concrete snapshot and an out-of-range stored cursor. -/
theorem C7_index_in_range_witness :
    (RoutingState.mk [("127.0.0.1", 8080), ("127.0.0.1", 8082)] 11).healthy ≠ [] ∧
    (11 % 2 < 2 ∧
      (find_backend_server ⟨[("127.0.0.1", 8080), ("127.0.0.1", 8082)], 11⟩).1 =
        [("127.0.0.1", 8080), ("127.0.0.1", 8082)][11 % 2]? ∧
      ((find_backend_server ⟨[("127.0.0.1", 8080), ("127.0.0.1", 8082)], 11⟩).1).isSome = true ∧
      (find_backend_server ⟨[("127.0.0.1", 8080), ("127.0.0.1", 8082)], 11⟩).2.cursor < 2) :=
  ⟨by decide, C7_index_in_range ⟨[("127.0.0.1", 8080), ("127.0.0.1", 8082)], 11⟩ (by decide)⟩

/-- Selection never changes the healthy set. -/
theorem find_backend_server_healthy (st : RoutingState) :
    (find_backend_server st).2.healthy = st.healthy := by
  unfold find_backend_server
  split
  · rfl
  · rfl

/-- The healthy set is untouched by any run of consecutive selections. -/
theorem selectN_healthy (st : RoutingState) (i : Nat) :
    (selectN st i).healthy = st.healthy := by
  induction i with
  | zero => rfl
  | succ n ih =>
    calc (selectN st (n + 1)).healthy
        = (find_backend_server (selectN st n)).2.healthy := rfl
      _ = (selectN st n).healthy := find_backend_server_healthy _
      _ = st.healthy := ih

/-- The cursor after `i + 1` consecutive selections over a fixed non-empty
healthy set. -/
theorem selectN_cursor (st : RoutingState) (h : st.healthy ≠ []) (i : Nat) :
    (selectN st (i + 1)).cursor = (st.cursor + (i + 1)) % st.healthy.length := by
  have hne : ¬ st.healthy.length = 0 :=
    Nat.pos_iff_ne_zero.mp (List.length_pos.mpr h)
  induction i with
  | zero =>
    show (find_backend_server st).2.cursor = (st.cursor + 1) % st.healthy.length
    simp [find_backend_server, hne, Nat.mod_add_mod]
  | succ n ih =>
    have hh : (selectN st (n + 1)).healthy = st.healthy := selectN_healthy st (n + 1)
    show (find_backend_server (selectN st (n + 1))).2.cursor
        = (st.cursor + (n + 1 + 1)) % st.healthy.length
    rw [find_backend_server]
    simp only [hh, hne, if_false, ih, Nat.mod_add_mod]
    rw [Nat.add_assoc]

/-- The backend returned by call `i` of a run over a fixed non-empty healthy
set: entry `(cursor + i) mod N` of the snapshot. -/
theorem selectedAt_closed_form (st : RoutingState) (h : st.healthy ≠ []) (i : Nat) :
    selectedAt st i = st.healthy[(st.cursor + i) % st.healthy.length]? := by
  have hne : ¬ st.healthy.length = 0 :=
    Nat.pos_iff_ne_zero.mp (List.length_pos.mpr h)
  cases i with
  | zero =>
    show (find_backend_server st).1 = _
    simp [find_backend_server, hne]
  | succ n =>
    have hh : (selectN st (n + 1)).healthy = st.healthy := selectN_healthy st (n + 1)
    show (find_backend_server (selectN st (n + 1))).1 = _
    rw [find_backend_server]
    simp only [hh, hne, if_false, selectN_cursor st h n,
      Nat.mod_mod_of_dvd _ (Nat.dvd_refl _)]

/-- C3: over a fixed, duplicate-free, non-empty healthy set of `N` backends,
consecutive `find_backend_server()` calls return backends in a stable rotation
of period `N`: every call returns a backend, call `i + N` returns the same
backend as call `i`, and within any window of `N` consecutive calls no two
calls return the same backend. -/
theorem C3_round_robin_rotation (st : RoutingState) (hne : st.healthy ≠ [])
    (hnd : st.healthy.Nodup) (i : Nat) :
    (selectedAt st i).isSome = true ∧
    selectedAt st (i + st.healthy.length) = selectedAt st i ∧
    (∀ m j k, j < st.healthy.length → k < st.healthy.length →
      selectedAt st (m + j) = selectedAt st (m + k) → j = k) := by
  have hlen : 0 < st.healthy.length := List.length_pos.mpr hne
  refine ⟨?_, ?_, ?_⟩
  · rw [selectedAt_closed_form st hne i,
      List.getElem?_eq_getElem (Nat.mod_lt _ hlen)]
    rfl
  · rw [selectedAt_closed_form st hne (i + st.healthy.length),
      selectedAt_closed_form st hne i, ← Nat.add_assoc, Nat.add_mod_right]
  · intro m j k hj hk hsel
    rw [selectedAt_closed_form st hne (m + j), selectedAt_closed_form st hne (m + k),
      List.getElem?_eq_getElem (Nat.mod_lt _ hlen),
      List.getElem?_eq_getElem (Nat.mod_lt _ hlen)] at hsel
    have hidx : (st.cursor + (m + j)) % st.healthy.length
        = (st.cursor + (m + k)) % st.healthy.length :=
      (hnd.getElem_inj_iff).mp (Option.some.inj hsel)
    rw [← Nat.add_assoc, ← Nat.add_assoc] at hidx
    have hmod : j % st.healthy.length = k % st.healthy.length :=
      Nat.ModEq.add_left_cancel' (st.cursor + m) hidx
    rwa [Nat.mod_eq_of_lt hj, Nat.mod_eq_of_lt hk] at hmod

/-- Witness for C3: two healthy backends, cursor 5, window starting at call 2. -/
theorem C3_round_robin_rotation_witness :
    ((RoutingState.mk [("127.0.0.1", 8080), ("127.0.0.1", 8081)] 5).healthy ≠ [] ∧
      (RoutingState.mk [("127.0.0.1", 8080), ("127.0.0.1", 8081)] 5).healthy.Nodup) ∧
    ((selectedAt ⟨[("127.0.0.1", 8080), ("127.0.0.1", 8081)], 5⟩ 2).isSome = true ∧
      selectedAt ⟨[("127.0.0.1", 8080), ("127.0.0.1", 8081)], 5⟩ (2 + 2) =
        selectedAt ⟨[("127.0.0.1", 8080), ("127.0.0.1", 8081)], 5⟩ 2 ∧
      (∀ m j k, j < 2 → k < 2 →
        selectedAt ⟨[("127.0.0.1", 8080), ("127.0.0.1", 8081)], 5⟩ (m + j) =
          selectedAt ⟨[("127.0.0.1", 8080), ("127.0.0.1", 8081)], 5⟩ (m + k) → j = k)) :=
  ⟨⟨by decide, by decide⟩,
    C3_round_robin_rotation ⟨[("127.0.0.1", 8080), ("127.0.0.1", 8081)], 5⟩
      (by decide) (by decide) 2⟩

/-! ### Health-cycle lemmas -/

/-- One monitor update keeps the healthy set duplicate-free. -/
theorem healthStep_nodup (h : List Server) (s : Server) (b : Bool)
    (hnd : h.Nodup) : (healthStep h s b).Nodup := by
  unfold healthStep
  split
  · next hc =>
    refine hnd.append (List.nodup_singleton s) ?_
    intro a ha hmem
    rw [List.mem_singleton] at hmem
    exact hc.2 (hmem ▸ ha)
  · split
    · exact hnd.erase s
    · exact hnd

/-- A backend whose probe succeeded is in the healthy set after its own
update step. -/
theorem mem_healthStep_self_true (h : List Server) (s : Server) :
    s ∈ healthStep h s true := by
  unfold healthStep
  split
  · next => exact List.mem_append_right _ (List.mem_singleton_self s)
  · next hc =>
    have hs : s ∈ h := by
      by_contra hns
      exact hc ⟨rfl, hns⟩
    split
    · next hc2 => exact absurd hc2.1 (by simp)
    · exact hs

/-- A backend whose probe failed is not in the healthy set after its own
update step. -/
theorem not_mem_healthStep_self_false (h : List Server) (s : Server)
    (hnd : h.Nodup) : s ∉ healthStep h s false := by
  unfold healthStep
  split
  · next hc => exact absurd hc.1 (by simp)
  · split
    · next => exact hnd.not_mem_erase
    · next hc2 =>
      intro hs
      exact hc2 ⟨rfl, hs⟩

/-- The update step for one backend does not change any other backend's
membership in the healthy set. -/
theorem mem_healthStep_other (h : List Server) (s t : Server) (b : Bool)
    (hts : t ≠ s) : t ∈ healthStep h s b ↔ t ∈ h := by
  unfold healthStep
  split
  · rw [List.mem_append, List.mem_singleton]
    exact ⟨fun hc => hc.elim id (fun he => absurd he hts), Or.inl⟩
  · split
    · exact List.mem_erase_of_ne hts
    · exact Iff.rfl

/-- Everything in the healthy set after one update step was already there or
is the updated backend itself. -/
theorem mem_healthStep_cases (h : List Server) (s t : Server) (b : Bool)
    (ht : t ∈ healthStep h s b) : t ∈ h ∨ t = s := by
  revert ht
  unfold healthStep
  split
  · rw [List.mem_append, List.mem_singleton]
    exact fun hc => hc
  · split
    · exact fun hm => Or.inl (List.erase_subset _ _ hm)
    · exact Or.inl

/-- Unfolding of `updateHealthyServersCycle` one registry entry at a time. -/
theorem updateHealthyServersCycle_cons (a : Server) (reg : List Server)
    (probe : Server → ProbeResult) (h : List Server) :
    updateHealthyServersCycle (a :: reg) probe h =
      updateHealthyServersCycle reg probe
        (healthStep h a (call_health_route (probe a))) := rfl

/-- A whole monitor cycle keeps the healthy set duplicate-free. -/
theorem updateHealthyServersCycle_nodup (reg : List Server)
    (probe : Server → ProbeResult) :
    ∀ h : List Server, h.Nodup → (updateHealthyServersCycle reg probe h).Nodup := by
  induction reg with
  | nil => exact fun h hnd => hnd
  | cons a reg ih =>
    intro h hnd
    rw [updateHealthyServersCycle_cons]
    exact ih _ (healthStep_nodup h a _ hnd)

/-- A backend that is out of the healthy set and whose probe maps to `False`
this cycle stays out for the rest of the cycle. -/
theorem cycle_not_mem_of_false (probe : Server → ProbeResult) (s : Server)
    (hs : call_health_route (probe s) = false) (reg : List Server) :
    ∀ h : List Server, s ∉ h → s ∉ updateHealthyServersCycle reg probe h := by
  induction reg with
  | nil => exact fun h hns => hns
  | cons a reg ih =>
    intro h hns
    rw [updateHealthyServersCycle_cons]
    refine ih _ ?_
    by_cases has : s = a
    · subst has
      rw [hs]
      unfold healthStep
      split
      · next hc => exact absurd hc.1 (by simp)
      · split
        · next hc2 => exact absurd hc2.2 hns
        · exact hns
    · rw [mem_healthStep_other h a s _ has]
      exact hns

/-- A backend that is in the healthy set and whose probe maps to `True`
this cycle stays in for the rest of the cycle. -/
theorem cycle_mem_of_true (probe : Server → ProbeResult) (s : Server)
    (hs : call_health_route (probe s) = true) (reg : List Server) :
    ∀ h : List Server, s ∈ h → s ∈ updateHealthyServersCycle reg probe h := by
  induction reg with
  | nil => exact fun h hm => hm
  | cons a reg ih =>
    intro h hm
    rw [updateHealthyServersCycle_cons]
    refine ih _ ?_
    by_cases has : s = a
    · subst has
      rw [hs]
      unfold healthStep
      split
      · next => exact List.mem_append_left _ hm
      · split
        · next hc2 => exact absurd hc2.1 (by simp)
        · exact hm
    · rw [mem_healthStep_other h a s _ has]
      exact hm

/-- After a cycle over a registry containing `s`, a backend whose probe maps
to `False` is not healthy... regardless of whether it was healthy before. -/
theorem cycle_not_mem_of_false_mem (probe : Server → ProbeResult) (s : Server)
    (hs : call_health_route (probe s) = false) (reg : List Server) :
    ∀ h : List Server, h.Nodup → s ∈ reg →
      s ∉ updateHealthyServersCycle reg probe h := by
  induction reg with
  | nil => intro h _ hmem; exact absurd hmem (List.not_mem_nil s)
  | cons a reg ih =>
    intro h hnd hmem
    rw [updateHealthyServersCycle_cons]
    by_cases has : s = a
    · subst has
      refine cycle_not_mem_of_false probe s hs reg _ ?_
      rw [hs]
      exact not_mem_healthStep_self_false h s hnd
    · rcases List.mem_cons.mp hmem with hsa | hsr
      · exact absurd hsa has
      · exact ih _ (healthStep_nodup h a _ hnd) hsr

/-- After a cycle over a registry containing `s`, a backend whose probe maps
to `True` is healthy, regardless of whether it was healthy before. -/
theorem cycle_mem_of_true_mem (probe : Server → ProbeResult) (s : Server)
    (hs : call_health_route (probe s) = true) (reg : List Server) :
    ∀ h : List Server, s ∈ reg → s ∈ updateHealthyServersCycle reg probe h := by
  induction reg with
  | nil => intro h hmem; exact absurd hmem (List.not_mem_nil s)
  | cons a reg ih =>
    intro h hmem
    rw [updateHealthyServersCycle_cons]
    by_cases has : s = a
    · subst has
      refine cycle_mem_of_true probe s hs reg _ ?_
      rw [hs]
      exact mem_healthStep_self_true h s
    · rcases List.mem_cons.mp hmem with hsa | hsr
      · exact absurd hsa has
      · exact ih _ hsr

/-- Two probe assignments whose boolean outcomes agree produce identical
cycles. -/
theorem cycle_congr (reg : List Server) (p q : Server → ProbeResult)
    (hpq : ∀ s, call_health_route (p s) = call_health_route (q s)) :
    ∀ h : List Server,
      updateHealthyServersCycle reg p h = updateHealthyServersCycle reg q h := by
  induction reg with
  | nil => intro h; rfl
  | cons a reg ih =>
    intro h
    rw [updateHealthyServersCycle_cons, updateHealthyServersCycle_cons, hpq a, ih]

/-- Everything healthy after a cycle was healthy before or belongs to the
probed registry. -/
theorem cycle_subset (R : List Server) (probe : Server → ProbeResult) :
    ∀ (reg h : List Server), (∀ s ∈ h, s ∈ R) → (∀ s ∈ reg, s ∈ R) →
      ∀ t ∈ updateHealthyServersCycle reg probe h, t ∈ R := by
  intro reg
  induction reg with
  | nil => intro h hh _ t ht; exact hh t ht
  | cons a reg ih =>
    intro h hh hr t ht
    rw [updateHealthyServersCycle_cons] at ht
    refine ih _ ?_ (fun s hs => hr s (List.mem_cons_of_mem a hs)) t ht
    intro s hs
    rcases mem_healthStep_cases h a s _ hs with hsh | hsa
    · exact hh s hsh
    · exact hsa ▸ hr a (List.mem_cons_self a reg)

/-- C4: in a monitor cycle, a backend whose probe attempt raised is handled
exactly like one whose probe reported unhealthy — it ends up outside the
healthy set (its `except` path inside `call_health_route` returns `False`,
and replacing the raised outcome by a plain unhealthy outcome changes
nothing) — and the cycle still processes every other backend: any backend of
the registry with a successful probe is healthy after the cycle, raised
probes elsewhere notwithstanding. -/
theorem C4_probe_error_not_skipped (registry h : List Server)
    (probe : Server → ProbeResult) (hnd : h.Nodup) (bad good : Server)
    (hbadmem : bad ∈ registry) (hbad : probe bad = ProbeResult.thrown)
    (hgoodmem : good ∈ registry) (hgood : probe good = ProbeResult.success) :
    bad ∉ updateHealthyServersCycle registry probe h ∧
    good ∈ updateHealthyServersCycle registry probe h ∧
    updateHealthyServersCycle registry probe h =
      updateHealthyServersCycle registry
        (fun s => if s = bad then ProbeResult.failure else probe s) h := by
  refine ⟨?_, ?_, ?_⟩
  · exact cycle_not_mem_of_false_mem probe bad (by rw [hbad]; rfl) registry h hnd hbadmem
  · exact cycle_mem_of_true_mem probe good (by rw [hgood]; rfl) registry h hgoodmem
  · refine cycle_congr registry probe _ ?_ h
    intro s
    by_cases hsb : s = bad
    · subst hsb
      rw [hbad]
      simp only [if_pos rfl]
      decide
    · simp [hsb]

/-- Witness for C4: first backend's probe raises, the other two succeed. -/
theorem C4_probe_error_not_skipped_witness :
    (healthy_servers.Nodup ∧
      ("127.0.0.1", 8080) ∈ backend_servers ∧
      (fun s => if s = (("127.0.0.1", 8080) : Server) then ProbeResult.thrown
        else ProbeResult.success) ("127.0.0.1", 8080) = ProbeResult.thrown ∧
      ("127.0.0.1", 8081) ∈ backend_servers ∧
      (fun s => if s = (("127.0.0.1", 8080) : Server) then ProbeResult.thrown
        else ProbeResult.success) ("127.0.0.1", 8081) = ProbeResult.success) ∧
    (("127.0.0.1", 8080) ∉ updateHealthyServersCycle backend_servers
        (fun s => if s = (("127.0.0.1", 8080) : Server) then ProbeResult.thrown
          else ProbeResult.success) healthy_servers ∧
      ("127.0.0.1", 8081) ∈ updateHealthyServersCycle backend_servers
        (fun s => if s = (("127.0.0.1", 8080) : Server) then ProbeResult.thrown
          else ProbeResult.success) healthy_servers ∧
      updateHealthyServersCycle backend_servers
        (fun s => if s = (("127.0.0.1", 8080) : Server) then ProbeResult.thrown
          else ProbeResult.success) healthy_servers =
        updateHealthyServersCycle backend_servers
          (fun s => if s = (("127.0.0.1", 8080) : Server) then ProbeResult.failure
            else (fun t => if t = (("127.0.0.1", 8080) : Server) then ProbeResult.thrown
              else ProbeResult.success) s) healthy_servers) :=
  ⟨⟨by decide, by decide, by decide, by decide, by decide⟩,
    C4_probe_error_not_skipped backend_servers healthy_servers
      (fun s => if s = (("127.0.0.1", 8080) : Server) then ProbeResult.thrown
        else ProbeResult.success)
      (by decide) ("127.0.0.1", 8080) ("127.0.0.1", 8081)
      (by decide) (by decide) (by decide) (by decide)⟩

/-- C8: the healthy set starts as (exactly) the configured registry, every
monitor cycle keeps it a subset of the registry it probes, and it can become
empty (a cycle in which every probe fails empties it). -/
theorem C8_healthy_subset_registry (registry h : List Server)
    (probe : Server → ProbeResult) (hsub : ∀ s ∈ h, s ∈ registry) :
    (∀ s ∈ healthy_servers, s ∈ backend_servers) ∧
    (∀ s ∈ updateHealthyServersCycle registry probe h, s ∈ registry) ∧
    updateHealthyServersCycle backend_servers (fun _ => ProbeResult.failure)
        healthy_servers = [] := by
  refine ⟨fun s hs => hs, ?_, by decide⟩
  exact cycle_subset registry probe registry h hsub (fun s hs => hs)

/-- Witness for C8 at the configured registry and initial healthy set. -/
theorem C8_healthy_subset_registry_witness :
    (∀ s ∈ healthy_servers, s ∈ backend_servers) ∧
    ((∀ s ∈ healthy_servers, s ∈ backend_servers) ∧
      (∀ s ∈ updateHealthyServersCycle backend_servers
          (fun _ => ProbeResult.success) healthy_servers, s ∈ backend_servers) ∧
      updateHealthyServersCycle backend_servers (fun _ => ProbeResult.failure)
          healthy_servers = []) :=
  ⟨by decide,
    C8_healthy_subset_registry backend_servers healthy_servers
      (fun _ => ProbeResult.success) (by decide)⟩

/-- A failure mode of the backend exchange in which no response bytes have
yet been forwarded to the client: the connection is refused, or request
framing fails after connecting, or the backend errors out before producing
any response chunk. -/
def failsBeforeResponse (stream : List Char) (beh : Server → BackendBeh)
    (b : Server) : Prop :=
  (beh b).connectOk = false ∨
  ((beh b).connectOk = true ∧ read_full_request stream = none) ∨
  ((beh b).connectOk = true ∧ (∃ p, read_full_request stream = some p) ∧
    (beh b).chunks = [] ∧ (beh b).dropMidStream = true)

/-- C1 counterexample: in the thread-pool variant, a client whose selected
backend refuses the connection (no response bytes yet sent) receives no
bytes at all — not the 502 literal — because that variant's `except` clause
only logs and the `finally` closes the sockets. -/
theorem C1_counterexample :
    clientBytes (handle_client_mt ⟨[("127.0.0.1", 8080)], 0⟩
        ("GET / HTTP/1.1\r\n\r\n").data (fun _ => ⟨false, [], false⟩)) = [] ∧
    connectAttempts (handle_client_mt ⟨[("127.0.0.1", 8080)], 0⟩
        ("GET / HTTP/1.1\r\n\r\n").data (fun _ => ⟨false, [], false⟩))
      = [("127.0.0.1", 8080)] ∧
    msg502 ≠ [] := by decide

/-- C1 amended: when handling fails before any response byte reaches the
client (connect refused, framing failure, backend error before the first
chunk), the cooperative variant writes exactly the 502 literal to the
client; the thread-pool variant writes nothing in every pre-first-byte
failure mode it has — a refused connection, or a backend that produces no
chunk before erroring or closing (it has no framing step) — because its
`except` clause only logs and the `finally` closes both sockets. -/
theorem C1_502_cooperative_only (st : RoutingState) (stream req : List Char)
    (beh : Server → BackendBeh) (b : Server)
    (hsel : (find_backend_server st).1 = some b)
    (hfail : failsBeforeResponse stream beh b) :
    clientBytes (handle_client_async st stream beh) = msg502 ∧
    ((beh b).connectOk = false ∨ (beh b).chunks = [] →
      clientBytes (handle_client_mt st req beh) = []) := by
  constructor
  · rcases hfail with hc | ⟨hc, hf⟩ | ⟨hc, ⟨p, hp⟩, hch, hdrop⟩
    · simp [handle_client_async, hsel, hc, clientBytes]
    · simp [handle_client_async, hsel, hc, hf, clientBytes]
    · obtain ⟨headers, body⟩ := p
      by_cases hb : body = [] <;>
        simp [handle_client_async, hsel, hc, hp, hch, hdrop, hb, clientBytes]
  · intro hc
    rcases hc with hc | hch
    · simp [handle_client_mt, hsel, hc, clientBytes]
    · by_cases hco : (beh b).connectOk = true <;>
        simp [handle_client_mt, hsel, hco, hch, clientBytes]

/-- Witness for the amended C1: one healthy backend that refuses the
connection. -/
theorem C1_502_cooperative_only_witness :
    ((find_backend_server ⟨[("127.0.0.1", 8080)], 0⟩).1 = some ("127.0.0.1", 8080) ∧
      failsBeforeResponse [] (fun _ => ⟨false, [], false⟩) ("127.0.0.1", 8080)) ∧
    (clientBytes (handle_client_async ⟨[("127.0.0.1", 8080)], 0⟩ []
        (fun _ => ⟨false, [], false⟩)) = msg502 ∧
      (((fun (_ : Server) => (⟨false, [], false⟩ : BackendBeh)) ("127.0.0.1", 8080)).connectOk = false ∨
        ((fun (_ : Server) => (⟨false, [], false⟩ : BackendBeh)) ("127.0.0.1", 8080)).chunks = [] →
        clientBytes (handle_client_mt ⟨[("127.0.0.1", 8080)], 0⟩ []
          (fun _ => ⟨false, [], false⟩)) = [])) :=
  ⟨⟨by decide, Or.inl (by decide)⟩,
    C1_502_cooperative_only ⟨[("127.0.0.1", 8080)], 0⟩ [] []
      (fun _ => ⟨false, [], false⟩) ("127.0.0.1", 8080) (by decide)
      (Or.inl (by decide))⟩

/-- C5 counterexample: on a concrete request, the cooperative variant's trace
begins with the selector call (index 0) and reads the client's request only
afterwards (index 2, after connecting), so backend selection does occur
before the request has been read. -/
theorem C5_counterexample :
    (handle_client_async ⟨[("127.0.0.1", 8080)], 0⟩ ("GET / HTTP/1.1\r\n\r\n").data
        (fun _ => ⟨true, [], false⟩)).head? =
      some (Event.select (some ("127.0.0.1", 8080))) ∧
    List.findIdx isSelect (handle_client_async ⟨[("127.0.0.1", 8080)], 0⟩
        ("GET / HTTP/1.1\r\n\r\n").data (fun _ => ⟨true, [], false⟩)) = 0 ∧
    List.findIdx isReadC (handle_client_async ⟨[("127.0.0.1", 8080)], 0⟩
        ("GET / HTTP/1.1\r\n\r\n").data (fun _ => ⟨true, [], false⟩)) = 2 ∧
    (0 : Nat) < 2 := by decide

/-- C5 amended: the thread-pool variant reads the client's bytes first and
calls the selector second; the cooperative variant calls the selector as its
very first step and reads the client's request only later (never as its
first event). -/
theorem C5_read_select_order (st : RoutingState) (req stream : List Char)
    (beh : Server → BackendBeh) :
    (handle_client_mt st req beh).head? = some (Event.readC req) ∧
    ((handle_client_mt st req beh).drop 1).head? =
      some (Event.select (find_backend_server st).1) ∧
    (∃ r, (handle_client_async st stream beh).head? = some (Event.select r)) ∧
    (∀ i d, (handle_client_async st stream beh)[i]? = some (Event.readC d) → 0 < i) := by
  have hmt1 : (handle_client_mt st req beh).head? = some (Event.readC req) := rfl
  have hhead : ∃ r, (handle_client_async st stream beh).head? = some (Event.select r) := by
    rcases h : (find_backend_server st).1 with _ | b
    · exact ⟨none, by simp [handle_client_async, h]⟩
    · exact ⟨some b, by simp [handle_client_async, h]⟩
  refine ⟨hmt1, ?_, hhead, ?_⟩
  · rcases h : (find_backend_server st).1 with _ | b <;>
      simp [handle_client_mt, h]
  · intro i d hi
    obtain ⟨r, hr⟩ := hhead
    cases i with
    | zero =>
      rw [List.head?_eq_getElem?, hi] at hr
      exact absurd hr (by simp)
    | succ n => exact Nat.succ_pos n

/-- C10: at startup, before any probe has completed, the healthy set equals
the full configured backend list; every configured backend is selectable,
and a client arriving then is routed to a backend that may actually be down:
the proxy attempts the connection and the client gets the failure path
(here the cooperative variant's 502), not a 503. -/
theorem C10_startup_presumed_healthy :
    healthy_servers = backend_servers ∧
    selectedAt ⟨healthy_servers, 0⟩ 0 = some ("127.0.0.1", 8080) ∧
    selectedAt ⟨healthy_servers, 0⟩ 1 = some ("127.0.0.1", 8081) ∧
    selectedAt ⟨healthy_servers, 0⟩ 2 = some ("127.0.0.1", 8082) ∧
    connectAttempts (handle_client_async ⟨healthy_servers, 0⟩
        ("GET / HTTP/1.1\r\n\r\n").data (fun _ => ⟨false, [], false⟩)) =
      [("127.0.0.1", 8080)] ∧
    clientBytes (handle_client_async ⟨healthy_servers, 0⟩
        ("GET / HTTP/1.1\r\n\r\n").data (fun _ => ⟨false, [], false⟩)) = msg502 ∧
    msg502 ≠ msg503 := by
  refine ⟨rfl, by decide, by decide, by decide, by decide, by decide, by decide⟩

/-! ### Framing lemmas for C9 -/

/-- Predicate: `pat` occurs in `l` starting at position `i`. -/
def occursAt (pat l : List Char) (i : Nat) : Prop :=
  (l.drop i).take pat.length = pat

instance occursAtDec (pat l : List Char) (i : Nat) : Decidable (occursAt pat l i) :=
  inferInstanceAs (Decidable ((l.drop i).take pat.length = pat))

/-- Lemma: `readuntil` returns exactly the prefix ending at the first occurrence of
the terminator, and the remaining bytes after it. -/
theorem readuntil_exact (pre rest : List Char)
    (hfirst : ∀ i, i < pre.length →
      ¬ occursAt crlfcrlf (pre ++ (crlfcrlf ++ rest)) i) :
    readuntil (pre ++ (crlfcrlf ++ rest)) = some (pre ++ crlfcrlf, rest) := by
  induction pre with
  | nil =>
    show readuntil ('\r' :: ('\n' :: '\r' :: '\n' :: rest)) = _
    rw [readuntil]
    simp [crlfcrlf]
  | cons c p ih =>
    have h0 : ¬ ((c :: (p ++ (crlfcrlf ++ rest))).take 4 = crlfcrlf) := by
      have h := hfirst 0 (Nat.succ_pos _)
      simpa [occursAt, crlfcrlf] using h
    have hshift : ∀ i, i < p.length →
        ¬ occursAt crlfcrlf (p ++ (crlfcrlf ++ rest)) i := by
      intro i hi
      have h := hfirst (i + 1) (Nat.succ_lt_succ hi)
      simpa [occursAt, List.drop_succ_cons] using h
    show readuntil (c :: (p ++ (crlfcrlf ++ rest))) = _
    rw [readuntil, if_neg h0, ih hshift]
    rfl

/-- When no header line matches `content-length:`, the parsed length is 0. -/
theorem findContentLength_eq_zero (lines : List (List Char))
    (h : ∀ line ∈ lines, startsWithLower contentLengthKey line = false) :
    findContentLength lines = 0 := by
  induction lines with
  | nil => rfl
  | cons l ls ih =>
    rw [findContentLength, h l (List.mem_cons_self l ls)]
    exact ih (fun x hx => h x (List.mem_cons_of_mem l hx))

/-- Bytes written to the backend ignore every non-`toB` event. -/
theorem backendBytes_append (l1 l2 : List Event) :
    backendBytes (l1 ++ l2) = backendBytes l1 ++ backendBytes l2 := by
  induction l1 with
  | nil => rfl
  | cons e l ih => cases e <;> simp [backendBytes, ih]

/-- Response chunks streamed to the client contribute nothing to the bytes
sent to the backend. -/
theorem backendBytes_map_toC (chunks : List (List Char)) :
    backendBytes (chunks.map Event.toC) = [] := by
  induction chunks with
  | nil => rfl
  | cons c cs ih => simp [backendBytes, ih]

/-- C9: under the cooperative variant's header-aware framing, a client byte
stream whose first double-CRLF terminator closes `pre ++ crlfcrlf` yields
headers ending exactly at that terminator; when the headers declare
`Content-Length: N` with `N > 0` (and the stream carries the body), the body
is exactly the next `N` bytes; with no `Content-Length` header the body is
empty; and whatever `read_full_request` returns is forwarded to the backend
unmodified, headers then body. -/
theorem C9_header_aware_framing (pre rest : List Char) (st : RoutingState)
    (beh : Server → BackendBeh) (b : Server)
    (hfirst : ∀ i, i < pre.length →
      ¬ occursAt crlfcrlf (pre ++ (crlfcrlf ++ rest)) i)
    (hsel : (find_backend_server st).1 = some b)
    (hconn : (beh b).connectOk = true) :
    (∀ N : Nat, 0 < N →
      findContentLength (splitCRLF (pre ++ crlfcrlf)) = (N : Int) →
      N ≤ rest.length →
      read_full_request (pre ++ (crlfcrlf ++ rest)) =
        some (pre ++ crlfcrlf, rest.take N) ∧
      (rest.take N).length = N) ∧
    ((∀ line ∈ splitCRLF (pre ++ crlfcrlf),
        startsWithLower contentLengthKey line = false) →
      read_full_request (pre ++ (crlfcrlf ++ rest)) = some (pre ++ crlfcrlf, [])) ∧
    (∀ hd bd, read_full_request (pre ++ (crlfcrlf ++ rest)) = some (hd, bd) →
      backendBytes (handle_client_async st (pre ++ (crlfcrlf ++ rest)) beh) =
        hd ++ bd) := by
  have hru := readuntil_exact pre rest hfirst
  refine ⟨?_, ?_, ?_⟩
  · intro N hN hcl hlen
    rw [read_full_request, hru]
    simp only [hcl, Int.natCast_pos, hN, if_pos, Int.toNat_natCast]
    rw [if_neg (by omega)]
    refine ⟨rfl, ?_⟩
    rw [List.length_take]
    exact Nat.min_eq_left hlen
  · intro hnone
    rw [read_full_request, hru]
    simp only [findContentLength_eq_zero _ hnone]
    rfl
  · intro hd bd hrfr
    by_cases hbd : bd = [] <;> by_cases hdm : (beh b).dropMidStream = true <;>
      simp [handle_client_async, hsel, hconn, hrfr, hbd, hdm, backendBytes,
        backendBytes_append, backendBytes_map_toC]

/-- Witness for C9: a GET with `Content-Length: 3` and a six-byte remainder,
one healthy backend accepting the connection. -/
theorem C9_header_aware_framing_witness :
    ((∀ i, i < ("GET / HTTP/1.1\r\nContent-Length: 3").data.length →
        ¬ occursAt crlfcrlf (("GET / HTTP/1.1\r\nContent-Length: 3").data ++
          (crlfcrlf ++ ("abcdef").data)) i) ∧
      (find_backend_server ⟨[("127.0.0.1", 8080)], 0⟩).1 = some ("127.0.0.1", 8080) ∧
      ((fun (_ : Server) => (⟨true, [], false⟩ : BackendBeh)) ("127.0.0.1", 8080)).connectOk = true) ∧
    ((∀ N : Nat, 0 < N →
        findContentLength (splitCRLF (("GET / HTTP/1.1\r\nContent-Length: 3").data ++ crlfcrlf)) = (N : Int) →
        N ≤ ("abcdef").data.length →
        read_full_request (("GET / HTTP/1.1\r\nContent-Length: 3").data ++
            (crlfcrlf ++ ("abcdef").data)) =
          some (("GET / HTTP/1.1\r\nContent-Length: 3").data ++ crlfcrlf,
            ("abcdef").data.take N) ∧
        (("abcdef").data.take N).length = N) ∧
      ((∀ line ∈ splitCRLF (("GET / HTTP/1.1\r\nContent-Length: 3").data ++ crlfcrlf),
          startsWithLower contentLengthKey line = false) →
        read_full_request (("GET / HTTP/1.1\r\nContent-Length: 3").data ++
            (crlfcrlf ++ ("abcdef").data)) =
          some (("GET / HTTP/1.1\r\nContent-Length: 3").data ++ crlfcrlf, [])) ∧
      (∀ hd bd,
        read_full_request (("GET / HTTP/1.1\r\nContent-Length: 3").data ++
            (crlfcrlf ++ ("abcdef").data)) = some (hd, bd) →
        backendBytes (handle_client_async ⟨[("127.0.0.1", 8080)], 0⟩
            (("GET / HTTP/1.1\r\nContent-Length: 3").data ++
              (crlfcrlf ++ ("abcdef").data))
            (fun _ => ⟨true, [], false⟩)) = hd ++ bd)) :=
  ⟨⟨by decide, by decide, by decide⟩,
    C9_header_aware_framing ("GET / HTTP/1.1\r\nContent-Length: 3").data
      ("abcdef").data ⟨[("127.0.0.1", 8080)], 0⟩ (fun _ => ⟨true, [], false⟩)
      ("127.0.0.1", 8080) (by decide) (by decide) (by decide)⟩

end LoadBalancer
